import Mathlib

/-!
Shallow embedding of `phon/io/read/read_from_abaqus_inp.py`.

The input file is modelled as the list of its lines, stored without the
trailing newline; `FS.readline` re-attaches `"\n"`, matching a
universal-newline text file whose lines are newline-terminated.  File
positions are line indices: the source only calls `tell`/`seek` at line
boundaries.  Python `print` output is collected in a log list (the second
component of every reader result); Python exceptions are values of
`PyErr`.  A Python `float` value is represented by the token it was
parsed from (no claim compares float values obtained from distinct
tokens), and a `numpy.array` by the list of its entries.  Python dicts
are association lists with insert-or-overwrite update.  Unbounded
`while True` loops carry explicit fuel: a first component of `none`
means the loop has not terminated within the given fuel, for any fuel.
-/

deriving instance DecidableEq for Except

namespace Phon

/-! ### Python string primitives, over the character list of a string -/

/-- The characters removed by Python `str.strip()`. -/
def pyWs (c : Char) : Bool :=
  c == ' ' || c == '\t' || c == '\n' || c == '\r' || c == '\x0b' || c == '\x0c'

/-- Remove leading and trailing whitespace, as `str.strip()` does. -/
def trimChars (l : List Char) : List Char :=
  ((l.dropWhile pyWs).reverse.dropWhile pyWs).reverse

def pstrip (s : String) : String := String.mk (trimChars s.data)

/-- Python `str.split(sep)` for a one-character separator: never returns an empty
list, and an empty input yields `[""]`. -/
def splitOnChar (sep : Char) : List Char → List (List Char)
  | [] => [[]]
  | c :: rest =>
    let r := splitOnChar sep rest
    if c == sep then [] :: r
    else
      match r with
      | h :: t => (c :: h) :: t
      | [] => [[c]]

def psplit (sep : Char) (s : String) : List String :=
  (splitOnChar sep s.data).map String.mk

/-- Python `line[0]`, guarded in the source by a non-blank check. -/
def strHead? (s : String) : Option Char := s.data.head?

def pStartsWith (pre s : String) : Bool := pre.data.isPrefixOf s.data

def pEndsWith (suf s : String) : Bool := suf.data.isSuffixOf s.data

/-- Python `s[0:n]` for `0 ≤ n` (clamped), as used by the `[0:-10]` slice via
`n = len(s) - 10`. -/
def ptake (n : Nat) (s : String) : String := String.mk (s.data.take n)

/-- Model of `re.match("<pre>(.*)", line)`: the line must start with the literal
prefix; the group is the rest of the line up to the first newline
(`.` does not match `"\n"`). -/
def matchKeyValue (pre line : String) : Option String :=
  if pStartsWith pre line then
    some (String.mk ((line.data.drop pre.data.length).takeWhile (fun c => !(c == '\n'))))
  else none

/-! ### Python numeric literal parsing -/

/-- Value of a nonempty all-digit character list, else `none`. -/
def digitsVal? (l : List Char) : Option Nat :=
  if l.isEmpty then none
  else if l.all Char.isDigit then
    some (l.foldl (fun acc c => acc * 10 + (c.toNat - 48)) 0)
  else none

/-- Python `int(s)`: optional surrounding whitespace, optional sign,
nonempty decimal digit string. -/
def pyIntParse (s : String) : Option Int :=
  match trimChars s.data with
  | '+' :: rest => (digitsVal? rest).map (fun n => (n : Int))
  | '-' :: rest => (digitsVal? rest).map (fun n => -(n : Int))
  | t => (digitsVal? t).map (fun n => (n : Int))

/-- Optional exponent part of a float literal: empty, or `e`/`E`, an
optional sign and a nonempty digit string. -/
def expOk (l : List Char) : Bool :=
  match l with
  | [] => true
  | e :: rest =>
    if e == 'e' || e == 'E' then
      let rest2 := match rest with
        | '+' :: r => r
        | '-' :: r => r
        | r => r
      !(rest2.takeWhile Char.isDigit).isEmpty && (rest2.dropWhile Char.isDigit).isEmpty
    else false

/-- Unsigned body of a float literal: digits, with an optional fraction
part (at least one digit on one side of the point) and exponent. -/
def floatBodyOk (l : List Char) : Bool :=
  let ds := l.takeWhile Char.isDigit
  let r1 := l.dropWhile Char.isDigit
  match r1 with
  | '.' :: r2 =>
    (!ds.isEmpty || !(r2.takeWhile Char.isDigit).isEmpty)
      && expOk (r2.dropWhile Char.isDigit)
  | r => !ds.isEmpty && expOk r

/-- Does Python `float(s)` accept the string?  Whitespace is stripped, an
optional sign precedes either a numeric body or a case-insensitive
`inf`/`infinity`/`nan`. -/
def pyFloatAccepts (s : String) : Bool :=
  let t := trimChars s.data
  let body := match t with
    | '+' :: r => r
    | '-' :: r => r
    | r => r
  let lower := body.map Char.toLower
  if lower == "inf".data || lower == "infinity".data || lower == "nan".data then true
  else floatBodyOk body

/-! ### Data model -/

/-- Python exceptions that can escape the reader. -/
inductive PyErr where
  | readInpFileError : String → PyErr
  | valueError : String → PyErr
  | unboundLocalError : String → PyErr
  | typeError : String → PyErr
  | indexError : String → PyErr
deriving DecidableEq

/-- The result of `to_number`: a Python `int`, or a Python `float`
represented by its source token. -/
inductive Number where
  | int : Int → Number
  | float : String → Number
deriving DecidableEq

structure NodeObj where
  coords : List Number
deriving DecidableEq

structure ElementObj where
  elType : String
  connectivity : List Number
deriving DecidableEq

structure ElementSetObj where
  name : String
  dim : Option Nat
  ids : List Number
deriving DecidableEq

structure NodeSetObj where
  name : String
  ids : List Number
deriving DecidableEq

/-- Python `d[k] = v` on an association list: overwrite in place, or append. -/
def dictInsert {α β : Type} [DecidableEq α] : List (α × β) → α → β → List (α × β)
  | [], k, v => [(k, v)]
  | (k', v') :: rest, k, v =>
    if k = k' then (k, v) :: rest else (k', v') :: dictInsert rest k v

def dictGet? {α β : Type} [DecidableEq α] : List (α × β) → α → Option β
  | [], _ => none
  | (k', v') :: rest, k => if k = k' then some v' else dictGet? rest k

structure Mesh where
  name : String
  nodes : List (Number × NodeObj)
  elements : List (Number × ElementObj)
  element_sets : List (String × ElementSetObj)
  node_sets : List (String × NodeSetObj)
deriving DecidableEq

def Mesh.empty (n : String) : Mesh := ⟨n, [], [], [], []⟩

/-! ### The stream -/

structure FS where
  lines : List String
  pos : Nat
deriving DecidableEq

/-- Python `f.readline()`: at end of stream return `""` without moving. -/
def FS.readline (fs : FS) : String × FS :=
  match fs.lines.get? fs.pos with
  | some l => (l ++ "\n", ⟨fs.lines, fs.pos + 1⟩)
  | none => ("", fs)

def FS.seek (fs : FS) (p : Nat) : FS := ⟨fs.lines, p⟩

/-! ### `to_number` -/

/-- Model of `to_number`: try `int(number)` first, else `float(number)`; a failing
float conversion raises the builtin `ValueError`. -/
def to_number (s : String) : Except PyErr Number :=
  match pyIntParse s with
  | some i => .ok (.int i)
  | none =>
    if pyFloatAccepts s then .ok (.float s)
    else .error (.valueError ("could not convert string to float: " ++ s))

/-- The comprehension `[to_number(x) for x in tokens]`: left to right, first failure wins. -/
def mapToNumber : List String → Except PyErr (List Number)
  | [] => .ok []
  | t :: ts =>
    match to_number t with
    | .error e => .error e
    | .ok n =>
      match mapToNumber ts with
      | .error e => .error e
      | .ok ns => .ok (n :: ns)

/-- Python `range(start, stop, step)` as a list of integers (the `step = 0`
case raises and is handled at the call site). -/
def pyRange (start stop step : Int) : List Int :=
  if 0 < step then
    (List.range ((stop - start + step - 1).toNat / step.toNat)).map
      (fun i => start + step * (i : Int))
  else if step < 0 then
    (List.range ((start - stop + (-step) - 1).toNat / (-step).toNat)).map
      (fun i => start + step * (i : Int))
  else []

/-! ### Readers.  Every reader returns a pair: the outcome (with `none`
meaning the loop did not finish within its fuel) and the print log. -/

abbrev PRes (α : Type) := Option (Except PyErr α) × List String

/-- Model of `_read_part`. -/
def readPart (fs : FS) (v : Nat) : PRes (Mesh × FS) :=
  let p := fs.readline
  match matchKeyValue "*Part, name=" p.1 with
  | none =>
    (some (.error (.readInpFileError
      ("Error parsing file. Expected *Part, name=XXX, read " ++ p.1 ++ "."))), [])
  | some partName =>
    (some (.ok (Mesh.empty partName, p.2)),
     if v = 1 ∨ v = 2 then ["Read part with name " ++ partName] else [])

/-- The `while True` loop of `_read_nodes`. -/
def readNodesLoop (v : Nat) :
    Nat → FS → List (Number × NodeObj) → Nat → PRes (List (Number × NodeObj) × FS)
  | 0, _, _, _ => (none, [])
  | fuel + 1, fs, nodes, numNodes =>
    let start := fs.pos
    let p := fs.readline
    if pstrip p.1 = "" then readNodesLoop v fuel p.2 nodes numNodes
    else if strHead? p.1 = some '*' then (some (.ok (nodes, p.2.seek start)), [])
    else
      let numNodes' := numNodes + 1
      let log1 := if v = 1 then
        ["Reading nodes, " ++ toString numNodes' ++ " nodes read"] else []
      match mapToNumber (psplit ',' (pstrip p.1)) with
      | .error e => (some (.error e), log1)
      | .ok [] => (some (.error (.indexError "list index out of range")), log1)
      | .ok (nid :: coords) =>
        let log2 := if v = 2 then ["Read node."] else []
        let r := readNodesLoop v fuel p.2 (dictInsert nodes nid ⟨coords⟩) numNodes'
        (r.1, log1 ++ log2 ++ r.2)

/-- Model of `_read_nodes`: the header line must be exactly `"*Node\n"`. -/
def readNodes (v fuel : Nat) (fs : FS) (mesh : Mesh) : PRes (Mesh × FS) :=
  let p := fs.readline
  if p.1 = "*Node\n" then
    let r := readNodesLoop v fuel p.2 mesh.nodes 0
    match r.1 with
    | none => (none, r.2)
    | some (.error e) => (some (.error e), r.2)
    | some (.ok nf) => (some (.ok ({ mesh with nodes := nf.1 }, nf.2)), r.2)
  else
    (some (.error (.readInpFileError
      ("\nError parsing file. Expected *Node, read " ++ p.1 ++ "."))), [])

/-- The `while True` loop of `_read_elements`; `numElems` is the running
count that is incremented per data line and finally returned. -/
def readElementsLoop (v : Nat) (elName : String) :
    Nat → FS → List (Number × ElementObj) → Nat →
      PRes (List (Number × ElementObj) × FS × Nat)
  | 0, _, _, _ => (none, [])
  | fuel + 1, fs, elems, numElems =>
    let start := fs.pos
    let p := fs.readline
    if pstrip p.1 = "" then readElementsLoop v elName fuel p.2 elems numElems
    else if strHead? p.1 = some '*' then
      (some (.ok (elems, p.2.seek start, numElems)), [])
    else
      let numElems' := numElems + 1
      let log1 := if v = 1 then
        ["Reading element " ++ elName ++ ", with id " ++ toString numElems' ++ "."]
        else []
      match mapToNumber (psplit ',' (pstrip p.1)) with
      | .error e => (some (.error e), log1)
      | .ok [] => (some (.error (.indexError "list index out of range")), log1)
      | .ok (eid :: conn) =>
        let r := readElementsLoop v elName fuel p.2
          (dictInsert elems eid ⟨elName, conn⟩) numElems'
        (r.1, log1 ++ r.2)

/-- Model of `_read_elements`: header `*Element, type=<TYPE>`, then the element
loop started from the caller's running total `numElems`. -/
def readElements (v fuel : Nat) (fs : FS) (mesh : Mesh) (numElems : Nat) :
    PRes (Mesh × FS × Nat) :=
  let p := fs.readline
  match matchKeyValue "*Element, type=" p.1 with
  | none =>
    (some (.error (.readInpFileError
      ("\nError parsing file. Expected *Element, type=XXX, got " ++ p.1 ++ "."))), [])
  | some elName =>
    let r := readElementsLoop v elName fuel p.2 mesh.elements numElems
    match r.1 with
    | none => (none, r.2)
    | some (.error e) => (some (.error e), r.2)
    | some (.ok t) =>
      (some (.ok ({ mesh with elements := t.1 }, t.2.1, t.2.2)), r.2)

/-- Dimensionality inference from the element-set name prefix. -/
def elsetDim (name : String) : Option Nat :=
  if pStartsWith "edge" name then some 1
  else if pStartsWith "face" name then some 2
  else if pStartsWith "poly" name then some 3
  else none

/-- The slice `name[0:-10]`, the generate-mode name strip. -/
def genStrip (name : String) : String := ptake (name.data.length - 10) name

/-- The enumeration-mode accumulation loop, shared verbatim by
`_read_element_set` and `_read_node_set` (the two loops in the source
are textually identical): gather stripped lines, comma-separated, until
a `*` line; then split, drop empty tokens, and parse. -/
def readSetIdsLoop : Nat → FS → String → Option (Except PyErr (List Number × FS))
  | 0, _, _ => none
  | fuel + 1, fs, fullStr =>
    let start := fs.pos
    let p := fs.readline
    if pstrip p.1 = "" then readSetIdsLoop fuel p.2 fullStr
    else if strHead? p.1 = some '*' then
      match mapToNumber ((psplit ',' fullStr).filter (fun t => !(t == ""))) with
      | .error e => some (.error e)
      | .ok ids => some (.ok (ids, p.2.seek start))
    else readSetIdsLoop fuel p.2 (fullStr ++ pstrip p.1 ++ ",")

/-- Model of `_read_element_set`.  In generate mode `range(start, stop + 1, step)`
needs three integer arguments: a missing third token raises `IndexError`,
a float among the three raises `TypeError`, a zero step `ValueError`. -/
def readElementSet (v fuel : Nat) (fs : FS) (mesh : Mesh) : PRes (Mesh × FS) :=
  let p := fs.readline
  match matchKeyValue "*Elset, elset=" p.1 with
  | none =>
    (some (.error (.readInpFileError
      ("Error parsing file. Expected *Elset, elset=X, got " ++ p.1 ++ "."))), [])
  | some name0 =>
    let dim := elsetDim name0
    let log := if v = 1 ∨ v = 2 then ["Reading element set " ++ name0 ++ "."] else []
    if pEndsWith "generate" name0 then
      let q := p.2.readline
      match mapToNumber (psplit ',' (pstrip q.1)) with
      | .error e => (some (.error e), log)
      | .ok (.int start :: .int stop :: .int step :: _) =>
        if step = 0 then
          (some (.error (.valueError "range() arg 3 must not be zero")), log)
        else
          let eset : ElementSetObj :=
            ⟨genStrip name0, dim, (pyRange start (stop + 1) step).map Number.int⟩
          let sets := dictInsert mesh.element_sets (genStrip name0) eset
          (some (.ok ({ mesh with element_sets := sets }, q.2)), log)
      | .ok (_ :: _ :: _ :: _) =>
        (some (.error (.typeError "range() integer arguments expected")), log)
      | .ok _ => (some (.error (.indexError "list index out of range")), log)
    else
      match readSetIdsLoop fuel p.2 "" with
      | none => (none, log)
      | some (.error e) => (some (.error e), log)
      | some (.ok r) =>
        let sets := dictInsert mesh.element_sets name0 ⟨name0, dim, r.1⟩
        (some (.ok ({ mesh with element_sets := sets }, r.2)), log)

/-- Model of `_read_node_set`: same algorithm without the dimensionality tag. -/
def readNodeSet (v fuel : Nat) (fs : FS) (mesh : Mesh) : PRes (Mesh × FS) :=
  let p := fs.readline
  match matchKeyValue "*Nset, nset=" p.1 with
  | none =>
    (some (.error (.readInpFileError
      ("Error parsing file. Expected *Nset, nset=X, got " ++ p.1 ++ "."))), [])
  | some name0 =>
    let log := if v = 1 ∨ v = 2 then ["Reading node set " ++ name0 ++ "."] else []
    if pEndsWith "generate" name0 then
      let q := p.2.readline
      match mapToNumber (psplit ',' (pstrip q.1)) with
      | .error e => (some (.error e), log)
      | .ok (.int start :: .int stop :: .int step :: _) =>
        if step = 0 then
          (some (.error (.valueError "range() arg 3 must not be zero")), log)
        else
          let nset : NodeSetObj :=
            ⟨genStrip name0, (pyRange start (stop + 1) step).map Number.int⟩
          let sets := dictInsert mesh.node_sets (genStrip name0) nset
          (some (.ok ({ mesh with node_sets := sets }, q.2)), log)
      | .ok (_ :: _ :: _ :: _) =>
        (some (.error (.typeError "range() integer arguments expected")), log)
      | .ok _ => (some (.error (.indexError "list index out of range")), log)
    else
      match readSetIdsLoop fuel p.2 "" with
      | none => (none, log)
      | some (.error e) => (some (.error e), log)
      | some (.ok r) =>
        let sets := dictInsert mesh.node_sets name0 ⟨name0, r.1⟩
        (some (.ok ({ mesh with node_sets := sets }, r.2)), log)

/-- The comma-leading token of a line, as peeked by the dispatcher:
`f.readline().strip().split(",")[0]`. -/
def keywordOfLine (line : String) : String :=
  match psplit ',' (pstrip line) with
  | k :: _ => k
  | [] => ""

/-- The dispatcher loop of `read_from_abaqus_inp`.  `mesh?` is the local
variable `mesh`, unassigned (`none`) until a `*Part` header is read;
using it unassigned raises `UnboundLocalError`.  `numElems` is the local
`num_elems`, updated by `num_elems += _read_elements(f, mesh, num_elems)`. -/
def dispatchLoop (v : Nat) : Nat → FS → Option Mesh → Nat → PRes (Mesh × Nat)
  | 0, _, _, _ => (none, [])
  | fuel + 1, fs, mesh?, numElems =>
    let start := fs.pos
    let p := fs.readline
    let keyword := keywordOfLine p.1
    let fs2 := p.2.seek start
    if keyword = "*Part" then
      let r := readPart fs2 v
      match r.1 with
      | none => (none, r.2)
      | some (.error e) => (some (.error e), r.2)
      | some (.ok mf) =>
        let rest := dispatchLoop v fuel mf.2 (some mf.1) numElems
        (rest.1, r.2 ++ rest.2)
    else if keyword = "*Node" then
      match mesh? with
      | none =>
        (some (.error (.unboundLocalError
          "local variable mesh referenced before assignment")), [])
      | some m =>
        let r := readNodes v fuel fs2 m
        match r.1 with
        | none => (none, r.2)
        | some (.error e) => (some (.error e), r.2)
        | some (.ok mf) =>
          let rest := dispatchLoop v fuel mf.2 (some mf.1) numElems
          (rest.1, r.2 ++ rest.2)
    else if keyword = "*Element" then
      match mesh? with
      | none =>
        (some (.error (.unboundLocalError
          "local variable mesh referenced before assignment")), [])
      | some m =>
        let r := readElements v fuel fs2 m numElems
        match r.1 with
        | none => (none, r.2)
        | some (.error e) => (some (.error e), r.2)
        | some (.ok t) =>
          let rest := dispatchLoop v fuel t.2.1 (some t.1) (numElems + t.2.2)
          (rest.1, r.2 ++ rest.2)
    else if keyword = "*Elset" then
      match mesh? with
      | none =>
        (some (.error (.unboundLocalError
          "local variable mesh referenced before assignment")), [])
      | some m =>
        let r := readElementSet v fuel fs2 m
        match r.1 with
        | none => (none, r.2)
        | some (.error e) => (some (.error e), r.2)
        | some (.ok mf) =>
          let rest := dispatchLoop v fuel mf.2 (some mf.1) numElems
          (rest.1, r.2 ++ rest.2)
    else if keyword = "*Nset" then
      match mesh? with
      | none =>
        (some (.error (.unboundLocalError
          "local variable mesh referenced before assignment")), [])
      | some m =>
        let r := readNodeSet v fuel fs2 m
        match r.1 with
        | none => (none, r.2)
        | some (.error e) => (some (.error e), r.2)
        | some (.ok mf) =>
          let rest := dispatchLoop v fuel mf.2 (some mf.1) numElems
          (rest.1, r.2 ++ rest.2)
    else if keyword = "*End Part" then
      match mesh? with
      | none =>
        (some (.error (.unboundLocalError
          "local variable mesh referenced before assignment")), [])
      | some m => (some (.ok (m, numElems)), [])
    else
      let q := fs2.readline
      dispatchLoop v fuel q.2 mesh? numElems

/-- Model of `read_from_abaqus_inp`, on the line list of the opened file.  The
returned pair of the successful outcome also exposes the final value of
the local `num_elems`, which the source uses only for diagnostics. -/
def read_from_abaqus_inp (fuel : Nat) (lines : List String) (verbose : Nat) :
    PRes (Mesh × Nat) :=
  dispatchLoop verbose fuel ⟨lines, 0⟩ none 0

/-- The member sequence as the spec words it: the arithmetic progression
`start, start + step, ...`, up to and including `stop`. -/
def specArithProg (start stop step : Int) : List Int :=
  if start ≤ stop ∧ 0 < step then
    (List.range ((stop - start).toNat / step.toNat + 1)).map
      (fun k => start + step * (k : Int))
  else []

/-- The keywords the dispatcher recognizes. -/
def recognizedKeyword (kw : String) : Bool :=
  kw == "*Part" || kw == "*Node" || kw == "*Element" ||
    kw == "*Elset" || kw == "*Nset" || kw == "*End Part"

/-- Is an outcome a raised `ReadInpFileError` (the spec calls this error
kind `FormatError`)? -/
def optIsReadInpErr {α : Type} : Option (Except PyErr α) → Bool
  | some (.error (.readInpFileError _)) => true
  | _ => false

/-! ## Theorems -/

/-- For a positive step, `range(start, stop + 1, step)` is exactly the
arithmetic progression from `start` up to and including `stop`. -/
theorem pyRange_eq_specArithProg (a stop c : Int) (h : 0 < c) :
    pyRange a (stop + 1) c = specArithProg a stop c := by
  unfold pyRange specArithProg
  rw [if_pos h]
  by_cases hle : a ≤ stop
  · rw [if_pos ⟨hle, h⟩]
    have hc : (stop + 1 - a + c - 1).toNat = (stop - a).toNat + c.toNat := by omega
    rw [hc, Nat.add_div_right _ (by omega : 0 < c.toNat)]
  · rw [if_neg (by tauto)]
    have hlt : (stop + 1 - a + c - 1).toNat < c.toNat := by omega
    rw [Nat.div_eq_of_lt hlt]
    simp

/-- A generate range with `start > stop` (and positive step) is empty. -/
theorem pyRange_empty_of_le (a b c : Int) (hba : b ≤ a) (hc : 0 < c) :
    pyRange a b c = [] := by
  unfold pyRange
  rw [if_pos hc]
  have hlt : (b - a + c - 1).toNat < c.toNat := by omega
  rw [Nat.div_eq_of_lt hlt]
  simp

/-- C1: an input whose stream ends before any `*End Part` line leaves the
dispatcher spinning at end of stream: for every fuel bound the run
produces no outcome at all (neither a mesh nor an error), the
legacy infinite loop the spec's design notes call a latent defect. -/
theorem read_from_abaqus_inp_truncated_diverges (fuel v : Nat) :
    (read_from_abaqus_inp fuel ["*Part, name=P"] v).1 = none := by
  have key : ∀ n k (m : Mesh),
      (dispatchLoop v n ⟨["*Part, name=P"], 1⟩ (some m) k).1 = none := by
    intro n
    induction n with
    | zero => intro k m; rfl
    | succ n ih => intro k m; exact ih k m
  cases fuel with
  | zero => rfl
  | succ n => exact key n 0 (Mesh.empty "P")

/-- Shift lemma: `_read_elements` returns the incoming running total plus the number
of element data lines in the block, not the block count alone. -/
theorem readElementsLoop_adds_incoming (v : Nat) (elName : String) :
    ∀ (fuel : Nat) (fs : FS) (elems : List (Number × ElementObj)) (n : Nat),
      (readElementsLoop v elName fuel fs elems n).1 =
        ((readElementsLoop v elName fuel fs elems 0).1).map
          (Except.map (fun t => (t.1, t.2.1, n + t.2.2))) := by
  intro fuel
  induction fuel with
  | zero => intro fs elems n; rfl
  | succ fuel ih =>
    intro fs elems n
    simp only [readElementsLoop]
    by_cases hb : pstrip (FS.readline fs).1 = ""
    · simp only [hb, if_pos]
      exact ih _ _ _
    · rw [if_neg hb, if_neg hb]
      by_cases hs : strHead? (FS.readline fs).1 = some '*'
      · simp [hs, Except.map]
      · rw [if_neg hs, if_neg hs]
        cases hm : mapToNumber (psplit ',' (pstrip (FS.readline fs).1)) with
        | error e => simp [Except.map]
        | ok nums =>
          cases nums with
          | nil => simp [Except.map]
          | cons eid conn =>
            simp only
            rw [ih _ _ (n + 1), ih _ _ (0 + 1)]
            cases (readElementsLoop v elName fuel (FS.readline fs).2
                (dictInsert elems eid ⟨elName, conn⟩) 0).1 with
            | none => rfl
            | some x =>
              cases x with
              | error e => rfl
              | ok t =>
                simp only [Option.map, Except.map]
                have harith : n + 1 + t.2.2 = n + (0 + 1 + t.2.2) := by omega
                rw [harith]

/-- C2: the element reader does not return the count of the block alone,
and the dispatcher double-counts.  A block of one data line entered with
a running total of 1 returns 2, and a part with two one-line `*Element`
blocks ends with `num_elems = 3` although only 2 element data lines were
read. -/
theorem read_elements_total_double_counts :
    (readElements 0 5 ⟨["*Element, type=T", "1, 1", "*End Part"], 0⟩
        (Mesh.empty "P") 1).1 =
      some (.ok ({ Mesh.empty "P" with elements := [(.int 1, ⟨"T", [.int 1]⟩)] },
        ⟨["*Element, type=T", "1, 1", "*End Part"], 2⟩, 2))
    ∧ (read_from_abaqus_inp 20 ["*Part, name=P", "*Element, type=T", "1, 1",
        "*Element, type=T", "2, 1", "*End Part"] 0).1 =
      some (.ok (⟨"P", [],
        [(.int 1, ⟨"T", [.int 1]⟩), (.int 2, ⟨"T", [.int 1]⟩)], [], []⟩, 3)) :=
  ⟨by decide, by decide⟩

/-- C4 counterexample: on a token that is neither an integer nor a float
literal, `to_number` raises the builtin `ValueError` escaping from
`float()`, not a `ReadInpFileError`, and the error propagates unchanged
out of the enclosing section reader and the whole read. -/
theorem to_number_bad_token_raises_valueerror :
    to_number "abc" =
      .error (.valueError "could not convert string to float: abc")
    ∧ optIsReadInpErr (some (to_number "abc")) = false
    ∧ (read_from_abaqus_inp 10 ["*Part, name=P", "*Node", "abc", "*End Part"] 0).1 =
      some (.error (.valueError "could not convert string to float: abc"))
    ∧ optIsReadInpErr
        (read_from_abaqus_inp 10 ["*Part, name=P", "*Node", "abc", "*End Part"] 0).1 =
      false :=
  ⟨by decide, by decide, by decide, by decide⟩

/-- C4 amended: a token accepted neither by `int()` nor by `float()`
makes `to_number` fail with the builtin `ValueError` (raised by the
`float` conversion), not with `ReadInpFileError`. -/
theorem to_number_unparsable_is_valueerror (s : String)
    (hint : pyIntParse s = none) (hfloat : pyFloatAccepts s = false) :
    to_number s = .error (.valueError ("could not convert string to float: " ++ s)) := by
  simp [to_number, hint, hfloat]

/-- Witness for the amended C4 at the token `"abc"`. -/
theorem to_number_unparsable_is_valueerror_witness :
    pyIntParse "abc" = none ∧ pyFloatAccepts "abc" = false ∧
      to_number "abc" =
        .error (.valueError ("could not convert string to float: " ++ "abc")) :=
  ⟨by decide, by decide, to_number_unparsable_is_valueerror "abc" (by decide) (by decide)⟩

/-- Evaluation of `_read_element_set` on a generate-mode section: header
line, then exactly one data line of three integers feeding
`range(start, stop + 1, step)`; the set is stored under the name with
its last 10 characters stripped. -/
theorem readElementSet_generate (v fuel : Nat) (header dataLine : String)
    (rest : List String) (mesh : Mesh) (name0 : String) (a b c : Int)
    (hname : matchKeyValue "*Elset, elset=" (header ++ "\n") = some name0)
    (hgen : pEndsWith "generate" name0 = true)
    (hinfo : mapToNumber (psplit ',' (pstrip (dataLine ++ "\n"))) =
      .ok [.int a, .int b, .int c])
    (hc : c ≠ 0) :
    (readElementSet v fuel ⟨header :: dataLine :: rest, 0⟩ mesh).1 =
      some (.ok ({ mesh with
        element_sets := dictInsert mesh.element_sets (genStrip name0)
          ⟨genStrip name0, elsetDim name0, (pyRange a (b + 1) c).map Number.int⟩ },
        ⟨header :: dataLine :: rest, 2⟩)) := by
  have h1 : FS.readline ⟨header :: dataLine :: rest, 0⟩ =
      (header ++ "\n", ⟨header :: dataLine :: rest, 1⟩) := rfl
  have h2 : FS.readline ⟨header :: dataLine :: rest, 1⟩ =
      (dataLine ++ "\n", ⟨header :: dataLine :: rest, 2⟩) := rfl
  simp only [readElementSet, h1, h2, hname, hgen, hinfo, if_true]
  rw [if_neg hc]

/-- Evaluation of `_read_node_set` on a generate-mode section, the
textually identical algorithm without the dimensionality tag. -/
theorem readNodeSet_generate (v fuel : Nat) (header dataLine : String)
    (rest : List String) (mesh : Mesh) (name0 : String) (a b c : Int)
    (hname : matchKeyValue "*Nset, nset=" (header ++ "\n") = some name0)
    (hgen : pEndsWith "generate" name0 = true)
    (hinfo : mapToNumber (psplit ',' (pstrip (dataLine ++ "\n"))) =
      .ok [.int a, .int b, .int c])
    (hc : c ≠ 0) :
    (readNodeSet v fuel ⟨header :: dataLine :: rest, 0⟩ mesh).1 =
      some (.ok ({ mesh with
        node_sets := dictInsert mesh.node_sets (genStrip name0)
          ⟨genStrip name0, (pyRange a (b + 1) c).map Number.int⟩ },
        ⟨header :: dataLine :: rest, 2⟩)) := by
  have h1 : FS.readline ⟨header :: dataLine :: rest, 0⟩ =
      (header ++ "\n", ⟨header :: dataLine :: rest, 1⟩) := rfl
  have h2 : FS.readline ⟨header :: dataLine :: rest, 1⟩ =
      (dataLine ++ "\n", ⟨header :: dataLine :: rest, 2⟩) := rfl
  simp only [readNodeSet, h1, h2, hname, hgen, hinfo, if_true]
  rw [if_neg hc]

/-- C5: a generate-mode set section (an `*Elset` read by
`_read_element_set` as well as an `*Nset` read by `_read_node_set`) with
integer data `start, stop, step` (positive step) stores exactly the
arithmetic progression from `start` up to and including `stop` as the
member-ID sequence. -/
theorem generate_set_stores_inclusive_progression (vE fuelE vN fuelN : Nat)
    (eh ed : String) (restE : List String) (meshE : Mesh) (nameE : String)
    (a1 b1 c1 : Int)
    (nh nd : String) (restN : List String) (meshN : Mesh) (nameN : String)
    (a2 b2 c2 : Int)
    (hnameE : matchKeyValue "*Elset, elset=" (eh ++ "\n") = some nameE)
    (hgenE : pEndsWith "generate" nameE = true)
    (hinfoE : mapToNumber (psplit ',' (pstrip (ed ++ "\n"))) =
      .ok [.int a1, .int b1, .int c1])
    (hstepE : 0 < c1)
    (hnameN : matchKeyValue "*Nset, nset=" (nh ++ "\n") = some nameN)
    (hgenN : pEndsWith "generate" nameN = true)
    (hinfoN : mapToNumber (psplit ',' (pstrip (nd ++ "\n"))) =
      .ok [.int a2, .int b2, .int c2])
    (hstepN : 0 < c2) :
    (readElementSet vE fuelE ⟨eh :: ed :: restE, 0⟩ meshE).1 =
      some (.ok ({ meshE with
        element_sets := dictInsert meshE.element_sets (genStrip nameE)
          ⟨genStrip nameE, elsetDim nameE, (specArithProg a1 b1 c1).map Number.int⟩ },
        ⟨eh :: ed :: restE, 2⟩))
    ∧ (readNodeSet vN fuelN ⟨nh :: nd :: restN, 0⟩ meshN).1 =
      some (.ok ({ meshN with
        node_sets := dictInsert meshN.node_sets (genStrip nameN)
          ⟨genStrip nameN, (specArithProg a2 b2 c2).map Number.int⟩ },
        ⟨nh :: nd :: restN, 2⟩)) := by
  constructor
  · rw [readElementSet_generate vE fuelE eh ed restE meshE nameE a1 b1 c1
      hnameE hgenE hinfoE (by omega)]
    rw [pyRange_eq_specArithProg a1 b1 c1 hstepE]
  · rw [readNodeSet_generate vN fuelN nh nd restN meshN nameN a2 b2 c2
      hnameN hgenN hinfoN (by omega)]
    rw [pyRange_eq_specArithProg a2 b2 c2 hstepN]

/-- Witness for C5: `*Elset, elset=Sgenerate` with data line `1,10,3`
yields the members `[1, 4, 7, 10]` (stored, by the 10-character strip,
under the empty name), and `*Nset, nset=N01generate` with the same data
line yields the same members under the stripped name `N`. -/
theorem generate_set_stores_inclusive_progression_witness :
    specArithProg 1 10 3 = [1, 4, 7, 10]
    ∧ ((readElementSet 0 5 ⟨["*Elset, elset=Sgenerate", "1,10,3"], 0⟩
        (Mesh.empty "Q")).1 =
      some (.ok ({ Mesh.empty "Q" with
        element_sets := dictInsert (Mesh.empty "Q").element_sets (genStrip "Sgenerate")
          ⟨genStrip "Sgenerate", elsetDim "Sgenerate",
            (specArithProg 1 10 3).map Number.int⟩ },
        ⟨["*Elset, elset=Sgenerate", "1,10,3"], 2⟩))
    ∧ (readNodeSet 0 5 ⟨["*Nset, nset=N01generate", "1,10,3"], 0⟩
        (Mesh.empty "Q")).1 =
      some (.ok ({ Mesh.empty "Q" with
        node_sets := dictInsert (Mesh.empty "Q").node_sets (genStrip "N01generate")
          ⟨genStrip "N01generate", (specArithProg 1 10 3).map Number.int⟩ },
        ⟨["*Nset, nset=N01generate", "1,10,3"], 2⟩))) :=
  ⟨by decide,
   generate_set_stores_inclusive_progression 0 5 0 5
     "*Elset, elset=Sgenerate" "1,10,3" [] (Mesh.empty "Q") "Sgenerate" 1 10 3
     "*Nset, nset=N01generate" "1,10,3" [] (Mesh.empty "Q") "N01generate" 1 10 3
     (by decide) (by decide) (by decide) (by decide)
     (by decide) (by decide) (by decide) (by decide)⟩

/-- C9: a generate-mode set section (element set or node set) whose data
line has integer `start > stop` and positive `step` still succeeds: the
set is inserted under the stripped name with an empty member-ID sequence
and no error is raised. -/
theorem generate_set_empty_range_ok (vE fuelE vN fuelN : Nat)
    (eh ed : String) (restE : List String) (meshE : Mesh) (nameE : String)
    (a1 b1 c1 : Int)
    (nh nd : String) (restN : List String) (meshN : Mesh) (nameN : String)
    (a2 b2 c2 : Int)
    (hnameE : matchKeyValue "*Elset, elset=" (eh ++ "\n") = some nameE)
    (hgenE : pEndsWith "generate" nameE = true)
    (hinfoE : mapToNumber (psplit ',' (pstrip (ed ++ "\n"))) =
      .ok [.int a1, .int b1, .int c1])
    (hltE : b1 < a1) (hstepE : 0 < c1)
    (hnameN : matchKeyValue "*Nset, nset=" (nh ++ "\n") = some nameN)
    (hgenN : pEndsWith "generate" nameN = true)
    (hinfoN : mapToNumber (psplit ',' (pstrip (nd ++ "\n"))) =
      .ok [.int a2, .int b2, .int c2])
    (hltN : b2 < a2) (hstepN : 0 < c2) :
    (readElementSet vE fuelE ⟨eh :: ed :: restE, 0⟩ meshE).1 =
      some (.ok ({ meshE with
        element_sets := dictInsert meshE.element_sets (genStrip nameE)
          ⟨genStrip nameE, elsetDim nameE, []⟩ },
        ⟨eh :: ed :: restE, 2⟩))
    ∧ (readNodeSet vN fuelN ⟨nh :: nd :: restN, 0⟩ meshN).1 =
      some (.ok ({ meshN with
        node_sets := dictInsert meshN.node_sets (genStrip nameN)
          ⟨genStrip nameN, []⟩ },
        ⟨nh :: nd :: restN, 2⟩)) := by
  constructor
  · rw [readElementSet_generate vE fuelE eh ed restE meshE nameE a1 b1 c1
      hnameE hgenE hinfoE (by omega)]
    rw [pyRange_empty_of_le a1 (b1 + 1) c1 (by omega) hstepE]
    rfl
  · rw [readNodeSet_generate vN fuelN nh nd restN meshN nameN a2 b2 c2
      hnameN hgenN hinfoN (by omega)]
    rw [pyRange_empty_of_le a2 (b2 + 1) c2 (by omega) hstepN]
    rfl

/-- Witness for C9 at `*Elset, elset=S01generate` and
`*Nset, nset=N01generate`, both with data `10,1,2`. -/
theorem generate_set_empty_range_ok_witness :
    (readElementSet 0 5 ⟨["*Elset, elset=S01generate", "10,1,2"], 0⟩
        (Mesh.empty "Q")).1 =
      some (.ok ({ Mesh.empty "Q" with
        element_sets := dictInsert (Mesh.empty "Q").element_sets (genStrip "S01generate")
          ⟨genStrip "S01generate", elsetDim "S01generate", []⟩ },
        ⟨["*Elset, elset=S01generate", "10,1,2"], 2⟩))
    ∧ (readNodeSet 0 5 ⟨["*Nset, nset=N01generate", "10,1,2"], 0⟩
        (Mesh.empty "Q")).1 =
      some (.ok ({ Mesh.empty "Q" with
        node_sets := dictInsert (Mesh.empty "Q").node_sets (genStrip "N01generate")
          ⟨genStrip "N01generate", []⟩ },
        ⟨["*Nset, nset=N01generate", "10,1,2"], 2⟩)) :=
  generate_set_empty_range_ok 0 5 0 5
    "*Elset, elset=S01generate" "10,1,2" [] (Mesh.empty "Q") "S01generate" 10 1 2
    "*Nset, nset=N01generate" "10,1,2" [] (Mesh.empty "Q") "N01generate" 10 1 2
    (by decide) (by decide) (by decide) (by decide) (by decide)
    (by decide) (by decide) (by decide) (by decide) (by decide)

/-- Dispatcher step on a line whose keyword is not one of the six
recognized ones: the line is consumed and discarded. -/
theorem dispatchLoop_skip (v fuel : Nat) (lines : List String) (pos : Nat)
    (mesh? : Option Mesh) (n : Nat) (l : String)
    (hget : lines.get? pos = some l)
    (hkw : recognizedKeyword (keywordOfLine (l ++ "\n")) = false) :
    dispatchLoop v (fuel + 1) ⟨lines, pos⟩ mesh? n =
      dispatchLoop v fuel ⟨lines, pos + 1⟩ mesh? n := by
  simp only [recognizedKeyword, Bool.or_eq_false_iff, beq_eq_false_iff_ne, ne_eq] at hkw
  obtain ⟨⟨⟨⟨⟨h1, h2⟩, h3⟩, h4⟩, h5⟩, h6⟩ := hkw
  have hr : FS.readline ⟨lines, pos⟩ = (l ++ "\n", ⟨lines, pos + 1⟩) := by
    unfold FS.readline
    rw [hget]
  simp only [dispatchLoop, hr]
  rw [if_neg h1, if_neg h2, if_neg h3, if_neg h4, if_neg h5, if_neg h6]
  simp only [FS.seek, hr]

/-- Dispatcher step on a `*Node` keyword line while the local `mesh` is
still unassigned: argument evaluation raises `UnboundLocalError`. -/
theorem dispatchLoop_node_unbound (v fuel : Nat) (lines : List String)
    (pos n : Nat) (l : String)
    (hget : lines.get? pos = some l)
    (hkw : keywordOfLine (l ++ "\n") = "*Node") :
    (dispatchLoop v (fuel + 1) ⟨lines, pos⟩ none n).1 =
      some (.error (.unboundLocalError
        "local variable mesh referenced before assignment")) := by
  have hr : FS.readline ⟨lines, pos⟩ = (l ++ "\n", ⟨lines, pos + 1⟩) := by
    unfold FS.readline
    rw [hget]
  simp only [dispatchLoop, hr, hkw]
  simp

/-- C3 amended: on a stream whose first recognized keyword line is
`*Node` (no preceding `*Part`), `read_from_abaqus_inp` fails with the
builtin `UnboundLocalError` on the unassigned local `mesh`, not with
`ReadInpFileError`. -/
theorem read_node_before_part_unbound (lines : List String) (p v fuel : Nat)
    (lp : String)
    (hbefore : ∀ i, i < p → ∀ li, lines.get? i = some li →
      recognizedKeyword (keywordOfLine (li ++ "\n")) = false)
    (hp : lines.get? p = some lp)
    (hkw : keywordOfLine (lp ++ "\n") = "*Node")
    (hfuel : p < fuel) :
    (read_from_abaqus_inp fuel lines v).1 =
      some (.error (.unboundLocalError
        "local variable mesh referenced before assignment")) := by
  suffices h : ∀ k pos fl,
      (∀ i, pos ≤ i → i < pos + k → ∀ li, lines.get? i = some li →
        recognizedKeyword (keywordOfLine (li ++ "\n")) = false) →
      lines.get? (pos + k) = some lp → k < fl →
      (dispatchLoop v fl ⟨lines, pos⟩ none 0).1 =
        some (.error (.unboundLocalError
          "local variable mesh referenced before assignment")) by
    exact h p 0 fuel (fun i _ hi li hli => hbefore i (by omega) li hli)
      (by simpa using hp) hfuel
  intro k
  induction k with
  | zero =>
    intro pos fl _ hgetp hk
    cases fl with
    | zero => omega
    | succ f =>
      exact dispatchLoop_node_unbound v f lines pos 0 lp (by simpa using hgetp) hkw
  | succ k ih =>
    intro pos fl hskip hgetp hk
    cases fl with
    | zero => omega
    | succ f =>
      obtain ⟨hlen, -⟩ := List.get?_eq_some.mp hgetp
      have hl0 : lines.get? pos = some (lines.get ⟨pos, by omega⟩) :=
        List.get?_eq_get (by omega)
      rw [dispatchLoop_skip v f lines pos none 0 _ hl0
        (hskip pos (le_refl pos) (by omega) _ hl0)]
      exact ih (pos + 1) f
        (fun i h1 h2 li hli => hskip i (by omega) (by omega) li hli)
        (by rw [show pos + 1 + k = pos + (k + 1) by omega]; exact hgetp)
        (by omega)

/-- C3 counterexample: a stream starting with `*Node` fails with
`UnboundLocalError`, which is not a `ReadInpFileError`. -/
theorem read_node_first_not_format_error :
    (read_from_abaqus_inp 5 ["*Node"] 0).1 =
      some (.error (.unboundLocalError
        "local variable mesh referenced before assignment"))
    ∧ optIsReadInpErr (read_from_abaqus_inp 5 ["*Node"] 0).1 = false :=
  ⟨by decide, by decide⟩

/-- Witness for the amended C3: an unrecognized line followed by `*Node`. -/
theorem read_node_before_part_unbound_witness :
    (read_from_abaqus_inp 3 ["junk", "*Node"] 0).1 =
      some (.error (.unboundLocalError
        "local variable mesh referenced before assignment")) :=
  read_node_before_part_unbound ["junk", "*Node"] 1 0 3 "*Node"
    (by
      intro i hi li hli
      have hi0 : i = 0 := by omega
      subst hi0
      have h2 : some "junk" = some li := hli
      cases h2
      decide)
    (by decide) (by decide) (by decide)

/-- One node-loop step on a data line: parse, insert, continue. -/
theorem readNodesLoop_step_data (v fuel : Nat) (lines : List String) (pos : Nat)
    (nodes : List (Number × NodeObj)) (k : Nat) (l : String)
    (nid : Number) (coords : List Number)
    (hget : lines.get? pos = some l)
    (hb : pstrip (l ++ "\n") ≠ "")
    (hs : strHead? (l ++ "\n") ≠ some '*')
    (hp : mapToNumber (psplit ',' (pstrip (l ++ "\n"))) = .ok (nid :: coords)) :
    (readNodesLoop v (fuel + 1) ⟨lines, pos⟩ nodes k).1 =
      (readNodesLoop v fuel ⟨lines, pos + 1⟩ (dictInsert nodes nid ⟨coords⟩) (k + 1)).1 := by
  have hr : FS.readline ⟨lines, pos⟩ = (l ++ "\n", ⟨lines, pos + 1⟩) := by
    unfold FS.readline; rw [hget]
  simp only [readNodesLoop, hr]
  rw [if_neg hb, if_neg hs, hp]

/-- One node-loop step on a `*` line: rewind and return the mapping. -/
theorem readNodesLoop_step_star (v fuel : Nat) (lines : List String) (pos : Nat)
    (nodes : List (Number × NodeObj)) (k : Nat) (l : String)
    (hget : lines.get? pos = some l)
    (hb : pstrip (l ++ "\n") ≠ "")
    (hs : strHead? (l ++ "\n") = some '*') :
    (readNodesLoop v (fuel + 1) ⟨lines, pos⟩ nodes k).1 =
      some (.ok (nodes, ⟨lines, pos⟩)) := by
  have hr : FS.readline ⟨lines, pos⟩ = (l ++ "\n", ⟨lines, pos + 1⟩) := by
    unfold FS.readline; rw [hget]
  simp only [readNodesLoop, hr]
  rw [if_neg hb, if_pos hs]
  rfl

/-- One element-loop step on a data line. -/
theorem readElementsLoop_step_data (v fuel : Nat) (elName : String)
    (lines : List String) (pos : Nat) (elems : List (Number × ElementObj))
    (k : Nat) (l : String) (eid : Number) (conn : List Number)
    (hget : lines.get? pos = some l)
    (hb : pstrip (l ++ "\n") ≠ "")
    (hs : strHead? (l ++ "\n") ≠ some '*')
    (hp : mapToNumber (psplit ',' (pstrip (l ++ "\n"))) = .ok (eid :: conn)) :
    (readElementsLoop v elName (fuel + 1) ⟨lines, pos⟩ elems k).1 =
      (readElementsLoop v elName fuel ⟨lines, pos + 1⟩
        (dictInsert elems eid ⟨elName, conn⟩) (k + 1)).1 := by
  have hr : FS.readline ⟨lines, pos⟩ = (l ++ "\n", ⟨lines, pos + 1⟩) := by
    unfold FS.readline; rw [hget]
  simp only [readElementsLoop, hr]
  rw [if_neg hb, if_neg hs, hp]

/-- One element-loop step on a `*` line: rewind and return mapping and
running count. -/
theorem readElementsLoop_step_star (v fuel : Nat) (elName : String)
    (lines : List String) (pos : Nat) (elems : List (Number × ElementObj))
    (k : Nat) (l : String)
    (hget : lines.get? pos = some l)
    (hb : pstrip (l ++ "\n") ≠ "")
    (hs : strHead? (l ++ "\n") = some '*') :
    (readElementsLoop v elName (fuel + 1) ⟨lines, pos⟩ elems k).1 =
      some (.ok (elems, ⟨lines, pos⟩, k)) := by
  have hr : FS.readline ⟨lines, pos⟩ = (l ++ "\n", ⟨lines, pos + 1⟩) := by
    unfold FS.readline; rw [hget]
  simp only [readElementsLoop, hr]
  rw [if_neg hb, if_pos hs]
  rfl

/-- C8: two data lines with the same ID inside a `*Node` section and two
inside an `*Element` section: the mesh keeps exactly one entry per ID,
holding the later line's data, and no error is raised. -/
theorem duplicate_ids_overwrite_silently (v fuel : Nat) (nm : String)
    (l1 l2 t eh e1 e2 ty : String) (nid eid : Int)
    (c1 c2 d1 d2 : List Number) (n0 : Nat)
    (hb1 : pstrip (l1 ++ "\n") ≠ "") (hs1 : strHead? (l1 ++ "\n") ≠ some '*')
    (hp1 : mapToNumber (psplit ',' (pstrip (l1 ++ "\n"))) = .ok (.int nid :: c1))
    (hb2 : pstrip (l2 ++ "\n") ≠ "") (hs2 : strHead? (l2 ++ "\n") ≠ some '*')
    (hp2 : mapToNumber (psplit ',' (pstrip (l2 ++ "\n"))) = .ok (.int nid :: c2))
    (htb : pstrip (t ++ "\n") ≠ "") (hts : strHead? (t ++ "\n") = some '*')
    (hhdr : matchKeyValue "*Element, type=" (eh ++ "\n") = some ty)
    (hbe1 : pstrip (e1 ++ "\n") ≠ "") (hse1 : strHead? (e1 ++ "\n") ≠ some '*')
    (hpe1 : mapToNumber (psplit ',' (pstrip (e1 ++ "\n"))) = .ok (.int eid :: d1))
    (hbe2 : pstrip (e2 ++ "\n") ≠ "") (hse2 : strHead? (e2 ++ "\n") ≠ some '*')
    (hpe2 : mapToNumber (psplit ',' (pstrip (e2 ++ "\n"))) = .ok (.int eid :: d2)) :
    (readNodes v (fuel + 3) ⟨["*Node", l1, l2, t], 0⟩ (Mesh.empty nm)).1 =
      some (.ok ({ Mesh.empty nm with nodes := [(.int nid, ⟨c2⟩)] },
        ⟨["*Node", l1, l2, t], 3⟩))
    ∧ (readElements v (fuel + 3) ⟨[eh, e1, e2, t], 0⟩ (Mesh.empty nm) n0).1 =
      some (.ok ({ Mesh.empty nm with elements := [(.int eid, ⟨ty, d2⟩)] },
        ⟨[eh, e1, e2, t], 3⟩, n0 + 2)) := by
  constructor
  · have hr0 : FS.readline ⟨["*Node", l1, l2, t], 0⟩ =
        ("*Node" ++ "\n", ⟨["*Node", l1, l2, t], 1⟩) := rfl
    simp only [readNodes, hr0]
    rw [if_pos (show ("*Node" ++ "\n" : String) = "*Node\n" from rfl)]
    rw [show fuel + 3 = fuel + 2 + 1 from rfl]
    rw [readNodesLoop_step_data v (fuel + 2) ["*Node", l1, l2, t] 1 _ 0 l1
      (.int nid) c1 rfl hb1 hs1 hp1]
    rw [readNodesLoop_step_data v (fuel + 1) ["*Node", l1, l2, t] 2 _ 1 l2
      (.int nid) c2 rfl hb2 hs2 hp2]
    rw [readNodesLoop_step_star v fuel ["*Node", l1, l2, t] 3 _ 2 t rfl htb hts]
    simp [dictInsert]
  · have hr0 : FS.readline ⟨[eh, e1, e2, t], 0⟩ =
        (eh ++ "\n", ⟨[eh, e1, e2, t], 1⟩) := rfl
    simp only [readElements, hr0, hhdr]
    rw [show fuel + 3 = fuel + 2 + 1 from rfl]
    rw [readElementsLoop_step_data v (fuel + 2) ty [eh, e1, e2, t] 1 _ n0 e1
      (.int eid) d1 rfl hbe1 hse1 hpe1]
    rw [readElementsLoop_step_data v (fuel + 1) ty [eh, e1, e2, t] 2 _ (n0 + 1) e2
      (.int eid) d2 rfl hbe2 hse2 hpe2]
    rw [readElementsLoop_step_star v fuel ty [eh, e1, e2, t] 3 _ (n0 + 2) t rfl htb hts]
    simp [dictInsert]

/-- Witness for C8 at node lines `1, 7` and `1, 8, 9`, and element lines
`1, 4` and `1, 5`. -/
theorem duplicate_ids_overwrite_silently_witness :
    (readNodes 0 (2 + 3) ⟨["*Node", "1, 7", "1, 8, 9", "*End Part"], 0⟩
        (Mesh.empty "P")).1 =
      some (.ok ({ Mesh.empty "P" with nodes := [(.int 1, ⟨[.int 8, .int 9]⟩)] },
        ⟨["*Node", "1, 7", "1, 8, 9", "*End Part"], 3⟩))
    ∧ (readElements 0 (2 + 3) ⟨["*Element, type=C3D4", "1, 4", "1, 5", "*End Part"], 0⟩
        (Mesh.empty "P") 0).1 =
      some (.ok ({ Mesh.empty "P" with
        elements := [(.int 1, ⟨"C3D4", [.int 5]⟩)] },
        ⟨["*Element, type=C3D4", "1, 4", "1, 5", "*End Part"], 3⟩, 0 + 2)) :=
  duplicate_ids_overwrite_silently 0 2 "P" "1, 7" "1, 8, 9" "*End Part"
    "*Element, type=C3D4" "1, 4" "1, 5" "C3D4" 1 1
    [.int 7] [.int 8, .int 9] [.int 4] [.int 5] 0
    (by decide) (by decide) (by decide) (by decide) (by decide) (by decide)
    (by decide) (by decide) (by decide) (by decide) (by decide) (by decide)
    (by decide) (by decide) (by decide)

/-- C10: a data line consisting of a single numeric token yields a node
with an empty coordinate vector (resp. an element with an empty
connectivity) inserted under that ID, with no arity check and no
error. -/
theorem single_token_line_empty_payload (v fuel : Nat) (nm : String)
    (l1 t eh e1 ty : String) (nid eid : Int) (n0 : Nat)
    (hb1 : pstrip (l1 ++ "\n") ≠ "") (hs1 : strHead? (l1 ++ "\n") ≠ some '*')
    (hp1 : mapToNumber (psplit ',' (pstrip (l1 ++ "\n"))) = .ok [.int nid])
    (htb : pstrip (t ++ "\n") ≠ "") (hts : strHead? (t ++ "\n") = some '*')
    (hhdr : matchKeyValue "*Element, type=" (eh ++ "\n") = some ty)
    (hbe1 : pstrip (e1 ++ "\n") ≠ "") (hse1 : strHead? (e1 ++ "\n") ≠ some '*')
    (hpe1 : mapToNumber (psplit ',' (pstrip (e1 ++ "\n"))) = .ok [.int eid]) :
    (readNodes v (fuel + 2) ⟨["*Node", l1, t], 0⟩ (Mesh.empty nm)).1 =
      some (.ok ({ Mesh.empty nm with nodes := [(.int nid, ⟨[]⟩)] },
        ⟨["*Node", l1, t], 2⟩))
    ∧ (readElements v (fuel + 2) ⟨[eh, e1, t], 0⟩ (Mesh.empty nm) n0).1 =
      some (.ok ({ Mesh.empty nm with elements := [(.int eid, ⟨ty, []⟩)] },
        ⟨[eh, e1, t], 2⟩, n0 + 1)) := by
  constructor
  · have hr0 : FS.readline ⟨["*Node", l1, t], 0⟩ =
        ("*Node" ++ "\n", ⟨["*Node", l1, t], 1⟩) := rfl
    simp only [readNodes, hr0]
    rw [if_pos (show ("*Node" ++ "\n" : String) = "*Node\n" from rfl)]
    rw [show fuel + 2 = fuel + 1 + 1 from rfl]
    rw [readNodesLoop_step_data v (fuel + 1) ["*Node", l1, t] 1 _ 0 l1
      (.int nid) [] rfl hb1 hs1 hp1]
    rw [readNodesLoop_step_star v fuel ["*Node", l1, t] 2 _ 1 t rfl htb hts]
    simp [dictInsert]
  · have hr0 : FS.readline ⟨[eh, e1, t], 0⟩ = (eh ++ "\n", ⟨[eh, e1, t], 1⟩) := rfl
    simp only [readElements, hr0, hhdr]
    rw [show fuel + 2 = fuel + 1 + 1 from rfl]
    rw [readElementsLoop_step_data v (fuel + 1) ty [eh, e1, t] 1 _ n0 e1
      (.int eid) [] rfl hbe1 hse1 hpe1]
    rw [readElementsLoop_step_star v fuel ty [eh, e1, t] 2 _ (n0 + 1) t rfl htb hts]
    simp [dictInsert]

/-- Witness for C10 at the single-token data lines `7` and `9`. -/
theorem single_token_line_empty_payload_witness :
    (readNodes 0 (1 + 2) ⟨["*Node", "7", "*End Part"], 0⟩ (Mesh.empty "P")).1 =
      some (.ok ({ Mesh.empty "P" with nodes := [(.int 7, ⟨[]⟩)] },
        ⟨["*Node", "7", "*End Part"], 2⟩))
    ∧ (readElements 0 (1 + 2) ⟨["*Element, type=T", "9", "*End Part"], 0⟩
        (Mesh.empty "P") 0).1 =
      some (.ok ({ Mesh.empty "P" with elements := [(.int 9, ⟨"T", []⟩)] },
        ⟨["*Element, type=T", "9", "*End Part"], 2⟩, 0 + 1)) :=
  single_token_line_empty_payload 0 1 "P" "7" "*End Part" "*Element, type=T" "9"
    "T" 7 9 0
    (by decide) (by decide) (by decide) (by decide) (by decide) (by decide)
    (by decide) (by decide) (by decide)

/-- One enumeration-loop step on a data line: append the stripped line
and a comma to the accumulator. -/
theorem readSetIdsLoop_step_data (fuel : Nat) (lines : List String) (pos : Nat)
    (fullStr l : String)
    (hget : lines.get? pos = some l)
    (hb : pstrip (l ++ "\n") ≠ "")
    (hs : strHead? (l ++ "\n") ≠ some '*') :
    readSetIdsLoop (fuel + 1) ⟨lines, pos⟩ fullStr =
      readSetIdsLoop fuel ⟨lines, pos + 1⟩ (fullStr ++ pstrip (l ++ "\n") ++ ",") := by
  have hr : FS.readline ⟨lines, pos⟩ = (l ++ "\n", ⟨lines, pos + 1⟩) := by
    unfold FS.readline; rw [hget]
  simp only [readSetIdsLoop, hr]
  rw [if_neg hb, if_neg hs]

/-- One enumeration-loop step on a `*` line: split the accumulator, drop
empty tokens, parse, rewind. -/
theorem readSetIdsLoop_step_star (fuel : Nat) (lines : List String) (pos : Nat)
    (fullStr l : String) (ids : List Number)
    (hget : lines.get? pos = some l)
    (hb : pstrip (l ++ "\n") ≠ "")
    (hs : strHead? (l ++ "\n") = some '*')
    (hparse : mapToNumber ((psplit ',' fullStr).filter (fun s => !(s == ""))) =
      .ok ids) :
    readSetIdsLoop (fuel + 1) ⟨lines, pos⟩ fullStr =
      some (.ok (ids, ⟨lines, pos⟩)) := by
  have hr : FS.readline ⟨lines, pos⟩ = (l ++ "\n", ⟨lines, pos + 1⟩) := by
    unfold FS.readline; rw [hget]
  simp only [readSetIdsLoop, hr]
  rw [if_neg hb, if_pos hs, hparse]
  rfl

/-- Model lemma: `_read_element_set` on an enumeration-mode section defers to the
accumulation loop and stores the parsed ids under the unstripped name. -/
theorem readElementSet_enum (v fuel : Nat) (header : String) (rest : List String)
    (mesh : Mesh) (name0 : String)
    (hname : matchKeyValue "*Elset, elset=" (header ++ "\n") = some name0)
    (hgen : pEndsWith "generate" name0 = false) :
    (readElementSet v fuel ⟨header :: rest, 0⟩ mesh).1 =
      match readSetIdsLoop fuel ⟨header :: rest, 1⟩ "" with
      | none => none
      | some (.error e) => some (.error e)
      | some (.ok r) => some (.ok ({ mesh with
          element_sets := dictInsert mesh.element_sets name0
            ⟨name0, elsetDim name0, r.1⟩ }, r.2)) := by
  have hr : FS.readline ⟨header :: rest, 0⟩ = (header ++ "\n", ⟨header :: rest, 1⟩) :=
    rfl
  simp only [readElementSet, hr, hname, hgen]
  simp only [Bool.false_eq_true, if_false]
  cases readSetIdsLoop fuel ⟨header :: rest, 1⟩ "" with
  | none => rfl
  | some x => cases x with
    | error e => rfl
    | ok r => rfl

/-- Model lemma: `_read_node_set` on an enumeration-mode section defers
to the same accumulation loop and stores the parsed ids under the
unstripped name. -/
theorem readNodeSet_enum (v fuel : Nat) (header : String) (rest : List String)
    (mesh : Mesh) (name0 : String)
    (hname : matchKeyValue "*Nset, nset=" (header ++ "\n") = some name0)
    (hgen : pEndsWith "generate" name0 = false) :
    (readNodeSet v fuel ⟨header :: rest, 0⟩ mesh).1 =
      match readSetIdsLoop fuel ⟨header :: rest, 1⟩ "" with
      | none => none
      | some (.error e) => some (.error e)
      | some (.ok r) => some (.ok ({ mesh with
          node_sets := dictInsert mesh.node_sets name0 ⟨name0, r.1⟩ }, r.2)) := by
  have hr : FS.readline ⟨header :: rest, 0⟩ = (header ++ "\n", ⟨header :: rest, 1⟩) :=
    rfl
  simp only [readNodeSet, hr, hname, hgen]
  simp only [Bool.false_eq_true, if_false]
  cases readSetIdsLoop fuel ⟨header :: rest, 1⟩ "" with
  | none => rfl
  | some x => cases x with
    | error e => rfl
    | ok r => rfl

/-- C6: a set section (element set or node set) written as an explicit
enumeration and one written in generate mode with an equivalent
(start, stop, step) produce element-wise equal member-ID sequences in
the resulting mesh. -/
theorem enum_and_generate_sets_agree (v fuel1 fuel2 vN fuelN1 fuelN2 : Nat)
    (h1 d t h2 g : String) (rest2 : List String) (nm1 nm2 name1 name2 : String)
    (a b c : Int) (ms : List Number)
    (nh1 nd nt nh2 ng : String) (restN2 : List String)
    (nmN1 nmN2 nameN1 nameN2 : String)
    (a2 b2 c2 : Int) (msN : List Number)
    (hn1 : matchKeyValue "*Elset, elset=" (h1 ++ "\n") = some name1)
    (hg1 : pEndsWith "generate" name1 = false)
    (hdb : pstrip (d ++ "\n") ≠ "") (hds : strHead? (d ++ "\n") ≠ some '*')
    (htb : pstrip (t ++ "\n") ≠ "") (hts : strHead? (t ++ "\n") = some '*')
    (hparse : mapToNumber ((psplit ',' ("" ++ pstrip (d ++ "\n") ++ ",")).filter
      (fun s => !(s == ""))) = .ok ms)
    (hn2 : matchKeyValue "*Elset, elset=" (h2 ++ "\n") = some name2)
    (hg2 : pEndsWith "generate" name2 = true)
    (hinfo : mapToNumber (psplit ',' (pstrip (g ++ "\n"))) =
      .ok [.int a, .int b, .int c])
    (hc : c ≠ 0)
    (hms : (pyRange a (b + 1) c).map Number.int = ms)
    (hnn1 : matchKeyValue "*Nset, nset=" (nh1 ++ "\n") = some nameN1)
    (hng1 : pEndsWith "generate" nameN1 = false)
    (hndb : pstrip (nd ++ "\n") ≠ "") (hnds : strHead? (nd ++ "\n") ≠ some '*')
    (hntb : pstrip (nt ++ "\n") ≠ "") (hnts : strHead? (nt ++ "\n") = some '*')
    (hnparse : mapToNumber ((psplit ',' ("" ++ pstrip (nd ++ "\n") ++ ",")).filter
      (fun s => !(s == ""))) = .ok msN)
    (hnn2 : matchKeyValue "*Nset, nset=" (nh2 ++ "\n") = some nameN2)
    (hng2 : pEndsWith "generate" nameN2 = true)
    (hninfo : mapToNumber (psplit ',' (pstrip (ng ++ "\n"))) =
      .ok [.int a2, .int b2, .int c2])
    (hnc : c2 ≠ 0)
    (hmsN : (pyRange a2 (b2 + 1) c2).map Number.int = msN) :
    (readElementSet v (fuel1 + 2) ⟨[h1, d, t], 0⟩ (Mesh.empty nm1)).1 =
      some (.ok ({ Mesh.empty nm1 with
        element_sets := dictInsert (Mesh.empty nm1).element_sets name1
          ⟨name1, elsetDim name1, ms⟩ }, ⟨[h1, d, t], 2⟩))
    ∧ (readElementSet v fuel2 ⟨h2 :: g :: rest2, 0⟩ (Mesh.empty nm2)).1 =
      some (.ok ({ Mesh.empty nm2 with
        element_sets := dictInsert (Mesh.empty nm2).element_sets (genStrip name2)
          ⟨genStrip name2, elsetDim name2, ms⟩ }, ⟨h2 :: g :: rest2, 2⟩))
    ∧ (readNodeSet vN (fuelN1 + 2) ⟨[nh1, nd, nt], 0⟩ (Mesh.empty nmN1)).1 =
      some (.ok ({ Mesh.empty nmN1 with
        node_sets := dictInsert (Mesh.empty nmN1).node_sets nameN1
          ⟨nameN1, msN⟩ }, ⟨[nh1, nd, nt], 2⟩))
    ∧ (readNodeSet vN fuelN2 ⟨nh2 :: ng :: restN2, 0⟩ (Mesh.empty nmN2)).1 =
      some (.ok ({ Mesh.empty nmN2 with
        node_sets := dictInsert (Mesh.empty nmN2).node_sets (genStrip nameN2)
          ⟨genStrip nameN2, msN⟩ }, ⟨nh2 :: ng :: restN2, 2⟩)) := by
  refine ⟨?_, ?_, ?_, ?_⟩
  · rw [readElementSet_enum v (fuel1 + 2) h1 [d, t] (Mesh.empty nm1) name1 hn1 hg1]
    rw [show fuel1 + 2 = fuel1 + 1 + 1 from rfl]
    rw [readSetIdsLoop_step_data (fuel1 + 1) [h1, d, t] 1 "" d rfl hdb hds]
    rw [readSetIdsLoop_step_star fuel1 [h1, d, t] 2
      ("" ++ pstrip (d ++ "\n") ++ ",") t ms rfl htb hts hparse]
  · rw [← hms]
    exact readElementSet_generate v fuel2 h2 g rest2 (Mesh.empty nm2) name2 a b c
      hn2 hg2 hinfo hc
  · rw [readNodeSet_enum vN (fuelN1 + 2) nh1 [nd, nt] (Mesh.empty nmN1) nameN1
      hnn1 hng1]
    rw [show fuelN1 + 2 = fuelN1 + 1 + 1 from rfl]
    rw [readSetIdsLoop_step_data (fuelN1 + 1) [nh1, nd, nt] 1 "" nd rfl hndb hnds]
    rw [readSetIdsLoop_step_star fuelN1 [nh1, nd, nt] 2
      ("" ++ pstrip (nd ++ "\n") ++ ",") nt msN rfl hntb hnts hnparse]
  · rw [← hmsN]
    exact readNodeSet_generate vN fuelN2 nh2 ng restN2 (Mesh.empty nmN2) nameN2
      a2 b2 c2 hnn2 hng2 hninfo hnc

/-- Witness for C6: `*Elset, elset=S` enumerating `1,4,7,10` against
`*Elset, elset=SXXgenerate` with data `1,10,3`, and `*Nset, nset=M`
enumerating `2,5,8` against `*Nset, nset=MXXgenerate` with data `2,8,3`;
each pair stores the same member sequence. -/
theorem enum_and_generate_sets_agree_witness :
    ((readElementSet 0 (1 + 2) ⟨["*Elset, elset=S", "1,4,7,10", "*End Part"], 0⟩
        (Mesh.empty "Q")).1 =
      some (.ok ({ Mesh.empty "Q" with
        element_sets := dictInsert (Mesh.empty "Q").element_sets "S"
          ⟨"S", elsetDim "S", [.int 1, .int 4, .int 7, .int 10]⟩ },
        ⟨["*Elset, elset=S", "1,4,7,10", "*End Part"], 2⟩))
    ∧ (readElementSet 0 0 ⟨["*Elset, elset=SXXgenerate", "1,10,3"], 0⟩
        (Mesh.empty "R")).1 =
      some (.ok ({ Mesh.empty "R" with
        element_sets := dictInsert (Mesh.empty "R").element_sets
          (genStrip "SXXgenerate")
          ⟨genStrip "SXXgenerate", elsetDim "SXXgenerate",
            [.int 1, .int 4, .int 7, .int 10]⟩ },
        ⟨["*Elset, elset=SXXgenerate", "1,10,3"], 2⟩))
    ∧ (readNodeSet 0 (1 + 2) ⟨["*Nset, nset=M", "2,5,8", "*End Part"], 0⟩
        (Mesh.empty "Q")).1 =
      some (.ok ({ Mesh.empty "Q" with
        node_sets := dictInsert (Mesh.empty "Q").node_sets "M"
          ⟨"M", [.int 2, .int 5, .int 8]⟩ },
        ⟨["*Nset, nset=M", "2,5,8", "*End Part"], 2⟩))
    ∧ (readNodeSet 0 0 ⟨["*Nset, nset=MXXgenerate", "2,8,3"], 0⟩
        (Mesh.empty "R")).1 =
      some (.ok ({ Mesh.empty "R" with
        node_sets := dictInsert (Mesh.empty "R").node_sets
          (genStrip "MXXgenerate")
          ⟨genStrip "MXXgenerate", [.int 2, .int 5, .int 8]⟩ },
        ⟨["*Nset, nset=MXXgenerate", "2,8,3"], 2⟩))) :=
  enum_and_generate_sets_agree 0 1 0 0 1 0
    "*Elset, elset=S" "1,4,7,10" "*End Part" "*Elset, elset=SXXgenerate" "1,10,3"
    [] "Q" "R" "S" "SXXgenerate" 1 10 3 [.int 1, .int 4, .int 7, .int 10]
    "*Nset, nset=M" "2,5,8" "*End Part" "*Nset, nset=MXXgenerate" "2,8,3"
    [] "Q" "R" "M" "MXXgenerate" 2 8 3 [.int 2, .int 5, .int 8]
    (by decide) (by decide) (by decide) (by decide) (by decide) (by decide)
    (by decide) (by decide) (by decide) (by decide) (by decide) (by decide)
    (by decide) (by decide) (by decide) (by decide) (by decide) (by decide)
    (by decide) (by decide) (by decide) (by decide) (by decide) (by decide)

/-! ### Verbosity independence: the outcome component of every reader is
the same at every verbosity level; only the print log differs. -/

theorem readPart_fst (fs : FS) (v w : Nat) :
    (readPart fs v).1 = (readPart fs w).1 := by
  simp only [readPart]
  cases matchKeyValue "*Part, name=" fs.readline.1 with
  | none => rfl
  | some partName => rfl

theorem readNodesLoop_fst (v w : Nat) :
    ∀ (fuel : Nat) (fs : FS) (nodes : List (Number × NodeObj)) (k : Nat),
      (readNodesLoop v fuel fs nodes k).1 = (readNodesLoop w fuel fs nodes k).1 := by
  intro fuel
  induction fuel with
  | zero => intro fs nodes k; rfl
  | succ fuel ih =>
    intro fs nodes k
    simp only [readNodesLoop]
    split
    · exact ih _ _ _
    · split
      · rfl
      · split <;> first | rfl | exact ih _ _ _

theorem readNodes_fst (v w fuel : Nat) (fs : FS) (mesh : Mesh) :
    (readNodes v fuel fs mesh).1 = (readNodes w fuel fs mesh).1 := by
  simp only [readNodes]
  by_cases hh : fs.readline.1 = "*Node\n"
  · simp only [if_pos hh]
    rw [readNodesLoop_fst v w fuel fs.readline.2 mesh.nodes 0]
    cases (readNodesLoop w fuel fs.readline.2 mesh.nodes 0).1 with
    | none => rfl
    | some x => cases x with
      | error e => rfl
      | ok nf => rfl
  · simp only [if_neg hh]

theorem readElementsLoop_fst (v w : Nat) (elName : String) :
    ∀ (fuel : Nat) (fs : FS) (elems : List (Number × ElementObj)) (k : Nat),
      (readElementsLoop v elName fuel fs elems k).1 =
        (readElementsLoop w elName fuel fs elems k).1 := by
  intro fuel
  induction fuel with
  | zero => intro fs elems k; rfl
  | succ fuel ih =>
    intro fs elems k
    simp only [readElementsLoop]
    split
    · exact ih _ _ _
    · split
      · rfl
      · split <;> first | rfl | exact ih _ _ _

theorem readElements_fst (v w fuel : Nat) (fs : FS) (mesh : Mesh) (n : Nat) :
    (readElements v fuel fs mesh n).1 = (readElements w fuel fs mesh n).1 := by
  simp only [readElements]
  cases matchKeyValue "*Element, type=" fs.readline.1 with
  | none => rfl
  | some elName =>
    simp only
    rw [readElementsLoop_fst v w elName fuel fs.readline.2 mesh.elements n]
    cases (readElementsLoop w elName fuel fs.readline.2 mesh.elements n).1 with
    | none => rfl
    | some x => cases x with
      | error e => rfl
      | ok t => rfl

theorem readElementSet_fst (v w fuel : Nat) (fs : FS) (mesh : Mesh) :
    (readElementSet v fuel fs mesh).1 = (readElementSet w fuel fs mesh).1 := by
  simp only [readElementSet]
  split
  · rfl
  · split
    · split <;> first | rfl | (split <;> rfl)
    · split <;> rfl

theorem readNodeSet_fst (v w fuel : Nat) (fs : FS) (mesh : Mesh) :
    (readNodeSet v fuel fs mesh).1 = (readNodeSet w fuel fs mesh).1 := by
  simp only [readNodeSet]
  split
  · rfl
  · split
    · split <;> first | rfl | (split <;> rfl)
    · split <;> rfl

theorem dispatchLoop_fst (v w : Nat) :
    ∀ (fuel : Nat) (fs : FS) (mesh? : Option Mesh) (n : Nat),
      (dispatchLoop v fuel fs mesh? n).1 = (dispatchLoop w fuel fs mesh? n).1 := by
  intro fuel
  induction fuel with
  | zero => intro fs mesh? n; rfl
  | succ fuel ih =>
    intro fs mesh? n
    cases mesh? with
    | none =>
      simp only [dispatchLoop]
      by_cases h1 : keywordOfLine fs.readline.1 = "*Part"
      · simp only [if_pos h1]
        rw [readPart_fst (fs.readline.2.seek fs.pos) v w]
        cases (readPart (fs.readline.2.seek fs.pos) w).1 with
        | none => rfl
        | some x => cases x with
          | error e => rfl
          | ok mf => exact ih _ _ _
      · simp only [if_neg h1]
        by_cases h2 : keywordOfLine fs.readline.1 = "*Node"
        · simp only [if_pos h2]
        · simp only [if_neg h2]
          by_cases h3 : keywordOfLine fs.readline.1 = "*Element"
          · simp only [if_pos h3]
          · simp only [if_neg h3]
            by_cases h4 : keywordOfLine fs.readline.1 = "*Elset"
            · simp only [if_pos h4]
            · simp only [if_neg h4]
              by_cases h5 : keywordOfLine fs.readline.1 = "*Nset"
              · simp only [if_pos h5]
              · simp only [if_neg h5]
                by_cases h6 : keywordOfLine fs.readline.1 = "*End Part"
                · simp only [if_pos h6]
                · simp only [if_neg h6]
                  exact ih _ _ _
    | some m =>
      simp only [dispatchLoop]
      by_cases h1 : keywordOfLine fs.readline.1 = "*Part"
      · simp only [if_pos h1]
        rw [readPart_fst (fs.readline.2.seek fs.pos) v w]
        cases (readPart (fs.readline.2.seek fs.pos) w).1 with
        | none => rfl
        | some x => cases x with
          | error e => rfl
          | ok mf => exact ih _ _ _
      · simp only [if_neg h1]
        by_cases h2 : keywordOfLine fs.readline.1 = "*Node"
        · simp only [if_pos h2]
          rw [readNodes_fst v w fuel (fs.readline.2.seek fs.pos) m]
          cases (readNodes w fuel (fs.readline.2.seek fs.pos) m).1 with
          | none => rfl
          | some x => cases x with
            | error e => rfl
            | ok mf => exact ih _ _ _
        · simp only [if_neg h2]
          by_cases h3 : keywordOfLine fs.readline.1 = "*Element"
          · simp only [if_pos h3]
            rw [readElements_fst v w fuel (fs.readline.2.seek fs.pos) m n]
            cases (readElements w fuel (fs.readline.2.seek fs.pos) m n).1 with
            | none => rfl
            | some x => cases x with
              | error e => rfl
              | ok t => exact ih _ _ _
          · simp only [if_neg h3]
            by_cases h4 : keywordOfLine fs.readline.1 = "*Elset"
            · simp only [if_pos h4]
              rw [readElementSet_fst v w fuel (fs.readline.2.seek fs.pos) m]
              cases (readElementSet w fuel (fs.readline.2.seek fs.pos) m).1 with
              | none => rfl
              | some x => cases x with
                | error e => rfl
                | ok mf => exact ih _ _ _
            · simp only [if_neg h4]
              by_cases h5 : keywordOfLine fs.readline.1 = "*Nset"
              · simp only [if_pos h5]
                rw [readNodeSet_fst v w fuel (fs.readline.2.seek fs.pos) m]
                cases (readNodeSet w fuel (fs.readline.2.seek fs.pos) m).1 with
                | none => rfl
                | some x => cases x with
                  | error e => rfl
                  | ok mf => exact ih _ _ _
              · simp only [if_neg h5]
                by_cases h6 : keywordOfLine fs.readline.1 = "*End Part"
                · simp only [if_pos h6]
                · simp only [if_neg h6]
                  exact ih _ _ _

/-- C7: the parsed result (mesh, running element count, and
success/failure outcome) of `read_from_abaqus_inp` is identical at every
verbosity level; verbosity only changes the diagnostic log. -/
theorem read_from_abaqus_inp_verbose_independent (fuel : Nat)
    (lines : List String) (v1 v2 : Nat) :
    (read_from_abaqus_inp fuel lines v1).1 = (read_from_abaqus_inp fuel lines v2).1 :=
  dispatchLoop_fst v1 v2 fuel ⟨lines, 0⟩ none 0

end Phon
